import Mathlib

/-!
# Verification of the OpenClawCity channel adapter

Shallow embedding of `src/adapter.ts`, `src/types.ts` and the event
normalizer (`normalize` / `formatEventText`), together with proofs of the
behavioural properties stated in the specification.

The repository contains two revisions of the adapter:
* the "upgrade-auth" variant (credentials and the resume watermark are
  carried as URL query parameters; the close handler inspects the close
  code and stops on code 4000), and
* the "handshake-frame" variant (a `hello`/`resume` frame is sent on
  transport open; its close handler takes no close code).
Both are modelled below where the difference matters.

JavaScript numbers used in timer arithmetic are modelled as rationals;
sequence numbers and millisecond timestamps are naturals.  Asynchronous
callbacks are modelled by a deterministic step function over an explicit
adapter state, driven by externally supplied events (socket open/close,
inbound frames, timer fires), which matches the single-threaded
event-loop execution of the source.
-/

namespace OpenClawCity

/-! ## Data model (src/types.ts) -/

/-- Enum `ConnectionState` from types.ts. -/
inductive ConnectionState
  | DISCONNECTED
  | CONNECTING
  | CONNECTED
  | DISCONNECTING
  | FAILED
deriving DecidableEq, Repr

/-- Structure `CityEventFrom`: originating actor of a city event. -/
structure CityEventFrom where
  id : String
  name : String
  avatar : Option String
deriving DecidableEq, Repr

/-- Structure `CityEventMetadata`: the structured metadata bag.  `buildingId` may be
`string | null` in the source; `null` and `undefined` behave identically in
every use site (`??` and truthiness), so both are modelled as `none`. -/
structure CityEventMetadata where
  conversationId : Option String
  zoneId : Option Nat
  buildingId : Option String
  proposalId : Option String
  expiresIn : Option Int
  artifactId : Option String
  reaction : Option String
deriving DecidableEq, Repr

/-- An all-absent metadata bag (`{}` in the source/tests). -/
def CityEventMetadata.empty : CityEventMetadata :=
  ⟨none, none, none, none, none, none, none⟩

/-- Frame `CityEvent`.  `eventType` is a string: the formatter of the adapter has
a default branch for unrecognized categories.  `from` is a Lean keyword, so
the field is called `from_`; the adapter accesses it defensively with `?.`,
hence the `Option`. -/
structure CityEvent where
  seq : Nat
  eventType : String
  from_ : Option CityEventFrom
  text : Option String
  timestamp : Option Nat
  metadata : CityEventMetadata
deriving DecidableEq, Repr

/-- Sender part of the normalized `MessageEnvelope`. -/
structure EnvelopeSender where
  id : String
  name : String
  avatar : Option String
deriving DecidableEq, Repr

/-- Content part of the normalized `MessageEnvelope`. -/
structure EnvelopeContent where
  text : String
deriving DecidableEq, Repr

/-- Metadata of the envelope: `{ eventType, seq, ...(event.metadata ?? {}) }`.
The spread of the original metadata bag is kept as a whole in `spread`. -/
structure EnvelopeMetadata where
  eventType : String
  seq : Nat
  spread : CityEventMetadata
deriving DecidableEq, Repr

/-- Structure `MessageEnvelope`: the consumer-facing representation. -/
structure MessageEnvelope where
  id : String
  timestamp : Nat
  channelId : String
  sender : EnvelopeSender
  content : EnvelopeContent
  metadata : EnvelopeMetadata
deriving DecidableEq, Repr

/-! ## Event normalizer (normalizer.ts: formatEventText, normalize) -/

/-- Source `formatEventText(event)`: human-readable text for each event category.
Truthiness checks of the source (ternaries on `metadata?.expiresIn`,
`metadata?.buildingId ? … : …`) treat `0` resp. the empty string as falsy;
`??` fallbacks only replace absent values. -/
def formatEventText (event : CityEvent) : String :=
  let name := (event.from_.map CityEventFrom.name).getD "Unknown"
  let text := (event.text).getD ""
  match event.eventType with
  | "dm_request" => (s!"[DM request from {name}] {text}").trim
  | "dm_message" => (s!"[DM from {name}] {text}").trim
  | "proposal_received" =>
      let expires :=
        match event.metadata.expiresIn with
        | some m => if m = 0 then "" else s!" (expires in {m} min)"
        | none => ""
      (s!"[Proposal from {name}] {text}{expires}").trim
  | "proposal_accepted" => (s!"[Proposal accepted by {name}] {text}").trim
  | "chat_mention" =>
      let zoneStr :=
        match event.metadata.zoneId with
        | some z => toString z
        | none => "?"
      let location :=
        match event.metadata.buildingId with
        | some b => if b = "" then s!"Zone {zoneStr}" else s!"building {b}"
        | none => s!"Zone {zoneStr}"
      (s!"[Chat in {location}] {name}: {text}").trim
  | "owner_message" => (s!"[Message from your human] {text}").trim
  | "building_activity" =>
      let building := (event.metadata.buildingId).getD "unknown building"
      (s!"[Activity in {building}] {name}: {text}").trim
  | "artifact_reaction" =>
      let reaction := (event.metadata.reaction).getD ""
      let artifact := (event.metadata.artifactId).getD "an artifact"
      (s!"[{name} reacted {reaction} to {artifact}] {text}").trim
  | "welcome" => (s!"[City] {text}").trim
  | other => (s!"[{other}] {name}: {text}").trim

/-- Source `normalize(event)`: city event → `MessageEnvelope`.  The source falls
back to `Date.now()` when the event carries no timestamp; the current local
time is the explicit parameter `now`. -/
def normalize (now : Nat) (event : CityEvent) : MessageEnvelope :=
  let seq := event.seq
  { id := s!"occ-{seq}"
    timestamp := (event.timestamp).getD now
    channelId := "openclawcity"
    sender :=
      { id := (event.from_.map CityEventFrom.id).getD "unknown"
        name := (event.from_.map CityEventFrom.name).getD "Unknown"
        avatar := event.from_.bind CityEventFrom.avatar }
    content := { text := formatEventText event }
    metadata := { eventType := event.eventType, seq := event.seq, spread := event.metadata } }

/-! ## Frames and adapter state (src/adapter.ts) -/

/-- Structure `WelcomeLocation` from types.ts. -/
structure WelcomeLocation where
  zoneId : Nat
  zoneName : String
  buildingId : Option String
  buildingName : Option String
deriving DecidableEq, Repr

/-- Structure `NearbyBot` from types.ts. -/
structure NearbyBot where
  id : String
  name : String
  avatar : Option String
deriving DecidableEq, Repr

/-- Frame `WelcomeFrame`.  The upgrade-auth adapter revision additionally reads a
server-declared `paused` flag (`welcome.paused ?? false`) that the TS type
does not declare; it is modelled as an optional boolean. -/
structure WelcomeFrame where
  version : Nat
  location : WelcomeLocation
  nearby : List NearbyBot
  pausedFlag : Option Bool
  pending : List CityEvent
deriving DecidableEq, Repr

/-- Outbound (client → server) frames. -/
inductive OutFrame
  | hello (version : Nat) (botId token : String)
  | resume (version : Nat) (botId token : String) (lastAckSeq : Nat)
  | ack (seq : Nat)
  | agent_reply
deriving DecidableEq, Repr

/-- Inbound (server → client) frames, discriminated on `frame.type`.
`error` carries `reason`, optional `message`, optional numeric `retryAfter`
(seconds, a JS number, hence rational). -/
inductive Frame
  | welcome (w : WelcomeFrame)
  | city_event (e : CityEvent)
  | action_result (success : Bool)
  | error (reason : String) (message : Option String) (retryAfter : Option ℚ)
  | pausedFrame (message : Option String)
  | resumedFrame
  | unknownFrame (tag : String)
deriving DecidableEq, Repr

/-- A pending `setTimeout` reconnect timer: its absolute due time in
milliseconds and whether it was installed by the rate-limit branch of
`handleError` (whose fire callback does not clear the `reconnecting` guard)
rather than by `scheduleReconnect`. -/
structure TimerInfo where
  due : ℚ
  isRateLimit : Bool
deriving DecidableEq, Repr

/-- Adapter configuration (after constructor defaulting). -/
structure Config where
  botId : String
  token : String
  reconnectBaseMs : ℚ
  reconnectMaxMs : ℚ
  pingIntervalMs : ℚ
deriving DecidableEq, Repr

/-- The mutable fields of `OpenClawCityAdapter`, plus the observable state of
the underlying socket: `wsAttached` means a socket with our listeners exists
(set by `openSocket`, cleared by `closeSocket` / transport close), `wsOpen`
mirrors `readyState === OPEN`, and `pendingConnect` means the `openSocket`
promise is still unsettled (`pendingReject` is non-null). -/
structure AdapterState where
  state : ConnectionState
  lastAckSeq : Nat
  attemptCount : Nat
  stopped : Bool
  paused : Bool
  reconnecting : Bool
  pingActive : Bool
  reconnectTimer : Option TimerInfo
  wsAttached : Bool
  wsOpen : Bool
  pendingConnect : Bool
deriving DecidableEq, Repr

/-- Field initial values of `OpenClawCityAdapter`. -/
def initialState : AdapterState :=
  { state := .DISCONNECTED, lastAckSeq := 0, attemptCount := 0, stopped := false,
    paused := false, reconnecting := false, pingActive := false, reconnectTimer := none,
    wsAttached := false, wsOpen := false, pendingConnect := false }

/-- Observable effects of a handler run: frames written to the socket,
consumer-callback invocations, hook notifications, socket creations,
transport pings. -/
inductive Output
  | sent (f : OutFrame)
  | dispatch (e : CityEvent) (env : MessageEnvelope)
  | stateChange (s : ConnectionState)
  | errorHook (reason : String)
  | welcomeHook
  | connectAttempt
  | ping
deriving DecidableEq, Repr

/-- Accessor `getLastAckSeq()`. -/
def getLastAckSeq (st : AdapterState) : Nat := st.lastAckSeq

/-- Accessor `getState()`. -/
def getState (st : AdapterState) : ConnectionState := st.state

/-- Accessor `isPaused()`. -/
def isPaused (st : AdapterState) : Bool := st.paused

/-! ## Adapter internals -/

/-- Source `calculateBackoff(attempt)`.  `u` is the `Math.random()` sample, drawn
uniformly from `[0, 1)`. -/
def calculateBackoff (cfg : Config) (attempt : Nat) (u : ℚ) : ℚ :=
  let exponential := cfg.reconnectBaseMs * 2 ^ attempt
  let capped := min exponential cfg.reconnectMaxMs
  let jitter := capped * (3/10) * (u * 2 - 1)
  max 100 (capped + jitter)

/-- Source `scheduleReconnect()`: guarded by the stopped flag and the reconnecting
guard; computes the backoff from the current attempt counter, increments the
counter, and (re)installs the reconnect timer.  `now` is the current time in
ms, `u` the jitter sample. -/
def scheduleReconnect (cfg : Config) (now : Nat) (u : ℚ) (st : AdapterState) : AdapterState :=
  if st.stopped || st.reconnecting then st
  else
    let delay := calculateBackoff cfg st.attemptCount u
    { st with reconnecting := true,
              attemptCount := st.attemptCount + 1,
              reconnectTimer := some ⟨(now : ℚ) + delay, false⟩ }

/-- Source `send(data)`: writes the frame only when `ws?.readyState === OPEN`. -/
def sendOut (st : AdapterState) (f : OutFrame) : List Output :=
  if st.wsOpen then [.sent f] else []

/-- Source `sendAck(seq)`: unconditionally overwrites the watermark, then attempts
to write the ack frame. -/
def sendAck (st : AdapterState) (seq : Nat) : AdapterState × List Output :=
  ({ st with lastAckSeq := seq }, sendOut st (.ack seq))

/-- Source `setState(next)`: mutate and notify only on an actual transition. -/
def setState (st : AdapterState) (next : ConnectionState) : AdapterState × List Output :=
  if st.state = next then (st, []) else ({ st with state := next }, [.stateChange next])

/-- Source `stop()`: idempotent; clears timers, settles a pending connect promise
(the awaiting `connect()` sees `stopped` and returns), detaches and closes
the socket, and transitions to DISCONNECTED. -/
def stop (st : AdapterState) : AdapterState × List Output :=
  if st.stopped then (st, [])
  else
    let st1 : AdapterState :=
      { st with stopped := true, pingActive := false, reconnectTimer := none,
                pendingConnect := false, wsAttached := false, wsOpen := false }
    setState st1 .DISCONNECTED

/-- Frame chosen by `sendHandshake()`: `resume` with the watermark when
`lastAckSeq > 0`, else `hello`; `PROTOCOL_VERSION = 1`. -/
def handshakeFrame (cfg : Config) (lastAckSeq : Nat) : OutFrame :=
  if lastAckSeq > 0 then .resume 1 cfg.botId cfg.token lastAckSeq
  else .hello 1 cfg.botId cfg.token

/-- Source `sendHandshake()`. -/
def sendHandshake (cfg : Config) (st : AdapterState) : AdapterState × List Output :=
  (st, sendOut st (handshakeFrame cfg st.lastAckSeq))

/-- Query parameters of the connection URL built by the upgrade-auth
variant of `openSocket`: credentials always, the watermark only when
`lastAckSeq > 0`. -/
def openSocketUrlParams (cfg : Config) (st : AdapterState) : List (String × String) :=
  [("token", cfg.token), ("botId", cfg.botId)] ++
    (if st.lastAckSeq > 0 then [("lastAckSeq", toString st.lastAckSeq)] else [])

/-- Source `connect()` up to the creation of the new socket: no-op when stopped,
otherwise transition to CONNECTING and start `openSocket` (store the reject
handle, detach any previous socket, create and attach the new one).  The
outcome of the promise is delivered by later events. -/
def connect (st : AdapterState) : AdapterState × List Output :=
  if st.stopped then (st, [])
  else
    let (st1, o1) := setState st .CONNECTING
    ({ st1 with pendingConnect := true, wsAttached := true, wsOpen := false },
     o1 ++ [.connectAttempt])

/-- The `catch` block of `connect()`, run when the `openSocket` promise
rejects: bail out when stopped, and only schedule a backoff reconnect when
no timer was already installed by a more specific handler. -/
def connectCatchRun (cfg : Config) (now : Nat) (u : ℚ) (st : AdapterState) :
    AdapterState × List Output :=
  if st.stopped then (st, [])
  else if st.reconnectTimer.isSome then (st, [])
  else (scheduleReconnect cfg now u st, [])

/-- Source `handleCityEvent(event)`: normalize, dispatch to the consumer, and ack —
the `catch` branch acks as well, so a throwing consumer (`ok event = false`)
produces the same acknowledgment.  `tsNow` is the local clock used by
the timestamp fallback of `normalize`. -/
def handleCityEvent (ok : CityEvent → Bool) (tsNow : Nat) (st : AdapterState)
    (event : CityEvent) : AdapterState × List Output :=
  let env := normalize tsNow event
  if ok event then
    let (st1, o1) := sendAck st event.seq
    (st1, .dispatch event env :: o1)
  else
    let (st1, o1) := sendAck st event.seq
    (st1, .dispatch event env :: o1)

/-- Source `dispatchPendingEvents(events)`: a sequential loop awaiting each
dispatch (and its acknowledgment) before starting the next. -/
def dispatchPendingEvents (ok : CityEvent → Bool) (tsNow : Nat) (st : AdapterState) :
    List CityEvent → AdapterState × List Output
  | [] => (st, [])
  | e :: rest =>
      let (st1, o1) := handleCityEvent ok tsNow st e
      let (st2, o2) := dispatchPendingEvents ok tsNow st1 rest
      (st2, o1 ++ o2)

/-- Source `handleWelcome(welcome)` (upgrade-auth revision): CONNECTED, reset the
attempt counter and the reconnecting guard, capture the pause flag, start
the liveness prober, notify the hook, then drain the backlog sequentially. -/
def handleWelcome (ok : CityEvent → Bool) (tsNow : Nat) (st : AdapterState)
    (w : WelcomeFrame) : AdapterState × List Output :=
  let (st1, o1) := setState st .CONNECTED
  let st2 : AdapterState :=
    { st1 with attemptCount := 0, reconnecting := false,
               paused := (w.pausedFlag).getD false, pingActive := true }
  let (st3, o3) := dispatchPendingEvents ok tsNow st2 w.pending
  (st3, o1 ++ [.welcomeHook] ++ o3)

/-- Truthiness of `frame.retryAfter` (absent and `0` are falsy). -/
def truthyRetryAfter : Option ℚ → Bool
  | some d => d != 0
  | none => false

/-- Source `handleError(frame)`: notify the error hook; stop outright on
`auth_failed` / `token_expired`; on `rate_limited` with a truthy
`retryAfter`, cancel any reconnect timer and install one due exactly
`retryAfter * 1000` ms from now; any other reason is only logged. -/
def handleError (st : AdapterState) (now : Nat) (reason : String)
    (retryAfter : Option ℚ) : AdapterState × List Output :=
  if reason = "auth_failed" ∨ reason = "token_expired" then
    let (st1, o1) := stop st
    (st1, .errorHook reason :: o1)
  else if reason = "rate_limited" ∧ truthyRetryAfter retryAfter then
    ({ st with reconnectTimer := some ⟨(now : ℚ) + (retryAfter.getD 0) * 1000, true⟩ },
     [.errorHook reason])
  else (st, [.errorHook reason])

/-- Message listener of the socket (upgrade-auth revision): `welcome`
resolves the pending promise and runs `handleWelcome`; `error` runs
`handleError` and rejects the promise — when it was still pending, the
awaiting `connect()` resumes in its catch block; everything else goes
through the switch of `handleFrame`. -/
def onMessageFrame (cfg : Config) (ok : CityEvent → Bool) (now : Nat) (u : ℚ)
    (st : AdapterState) (f : Frame) : AdapterState × List Output :=
  match f with
  | .welcome w =>
      handleWelcome ok now { st with pendingConnect := false } w
  | .error reason _ retryAfter =>
      let wasPending := st.pendingConnect
      let (st1, o1) := handleError { st with pendingConnect := false } now reason retryAfter
      if wasPending then
        let (st2, o2) := connectCatchRun cfg now u st1
        (st2, o1 ++ o2)
      else (st1, o1)
  | .city_event e => handleCityEvent ok now st e
  | .action_result _ => (st, [])
  | .pausedFrame _ => ({ st with paused := true }, [])
  | .resumedFrame => ({ st with paused := false }, [])
  | .unknownFrame _ => (st, [])

/-- Close listener of the upgrade-auth revision: clear the
ping timer; do nothing when stopped; stop outright on close code 4000
(connection replaced by a newer instance); otherwise DISCONNECTED and a
backoff reconnect unless a timer is already installed. -/
def onCloseUpgradeAuth (cfg : Config) (now : Nat) (u : ℚ) (st : AdapterState)
    (code : Nat) : AdapterState × List Output :=
  let st0 : AdapterState := { st with pingActive := false }
  if st0.stopped then (st0, [])
  else if code = 4000 then stop st0
  else
    let (st1, o1) := setState st0 .DISCONNECTED
    if st1.reconnectTimer.isSome then (st1, o1)
    else (scheduleReconnect cfg now u st1, o1)

/-- Close listener of the handshake-frame revision: it takes
no close-code argument at all — every non-stopped close transitions to
DISCONNECTED and schedules a backoff reconnect unless a timer is already
installed.  (`ws` passes the close code, the callback ignores it.) -/
def onCloseHandshakeFrame (cfg : Config) (now : Nat) (u : ℚ) (st : AdapterState)
    (_code : Nat) : AdapterState × List Output :=
  let st0 : AdapterState := { st with pingActive := false }
  if st0.stopped then (st0, [])
  else
    let (st1, o1) := setState st0 .DISCONNECTED
    if st1.reconnectTimer.isSome then (st1, o1)
    else (scheduleReconnect cfg now u st1, o1)

/-- Open listener of the handshake-frame revision: the
transport becomes OPEN; when stopped the socket is closed again and the
promise rejected, otherwise the handshake frame is sent — the first and
only write in this step, since `send` drops everything while the transport
is not yet open. -/
def onOpenHandshakeFrame (cfg : Config) (st : AdapterState) : AdapterState × List Output :=
  let st0 : AdapterState := { st with wsOpen := true }
  if st0.stopped then
    ({ st0 with wsOpen := false, wsAttached := false, pendingConnect := false }, [])
  else sendHandshake cfg st0

/-! ## The event-loop step machine (upgrade-auth revision) -/

/-- External stimuli driving the adapter: the public API calls, the socket
listener events, and timer expirations.  Each is processed to completion
before the next (the JS event loop). -/
inductive Ev
  | connectCall
  | stopCall
  | wsOpenEv
  | wsMessage (f : Frame)
  | wsClose (code : Nat)
  | wsError
  | timerFire
  | pingTick
deriving DecidableEq, Repr

/-- One event-loop turn of the upgrade-auth adapter.  Socket listener events
require an attached socket (`stop()`/`closeSocket` call
`removeAllListeners`, so a detached socket can never mutate state); the
reconnect timer can only fire once its due time has been reached; the ping
tick only exists while the prober interval is installed.  `now` is the
current time in ms, `u` the jitter sample used if a backoff is computed. -/
def step (cfg : Config) (ok : CityEvent → Bool) (now : Nat) (u : ℚ)
    (st : AdapterState) : Ev → AdapterState × List Output
  | .connectCall => connect st
  | .stopCall => stop st
  | .wsOpenEv =>
      if st.wsAttached then
        let st0 : AdapterState := { st with wsOpen := true }
        if st0.stopped then
          ({ st0 with wsOpen := false, wsAttached := false, pendingConnect := false }, [])
        else (st0, [])
      else (st, [])
  | .wsMessage f =>
      if st.wsAttached then onMessageFrame cfg ok now u st f else (st, [])
  | .wsClose code =>
      if st.wsAttached then
        onCloseUpgradeAuth cfg now u { st with wsAttached := false, wsOpen := false } code
      else (st, [])
  | .wsError =>
      if st.wsAttached then
        if st.pendingConnect then
          connectCatchRun cfg now u { st with pendingConnect := false }
        else (st, [])
      else (st, [])
  | .timerFire =>
      match st.reconnectTimer with
      | none => (st, [])
      | some tm =>
          if tm.due ≤ (now : ℚ) then
            if tm.isRateLimit then
              let st0 : AdapterState := { st with reconnectTimer := none }
              if st0.stopped then (st0, []) else connect st0
            else
              let st0 : AdapterState := { st with reconnectTimer := none, reconnecting := false }
              if st0.stopped then (st0, []) else connect st0
          else (st, [])
  | .pingTick =>
      if st.pingActive then (st, if st.wsOpen then [.ping] else []) else (st, [])

/-- Run a list of timed events (`(now, u, ev)`) through `step`,
concatenating the outputs. -/
def run (cfg : Config) (ok : CityEvent → Bool) (st : AdapterState) :
    List (Nat × ℚ × Ev) → AdapterState × List Output
  | [] => (st, [])
  | (now, u, e) :: rest =>
      let (st1, o1) := step cfg ok now u st e
      let (st2, o2) := run cfg ok st1 rest
      (st2, o1 ++ o2)

/-- Like `run`, but each output is tagged with the time of the step that
produced it. -/
def runTimed (cfg : Config) (ok : CityEvent → Bool) (st : AdapterState) :
    List (Nat × ℚ × Ev) → AdapterState × List (Nat × Output)
  | [] => (st, [])
  | (now, u, e) :: rest =>
      let (st1, o1) := step cfg ok now u st e
      let (st2, o2) := runTimed cfg ok st1 rest
      (st2, o1.map (fun o => (now, o)) ++ o2)

/-! ## Concrete fixtures (mirroring the test fixtures of the repository) -/

/-- Default configuration of the source (base 3000 ms, max 300000 ms,
ping 30000 ms) with the test credentials. -/
def cfgEx : Config :=
  { botId := "test-bot-123", token := "test-token-abc",
    reconnectBaseMs := 3000, reconnectMaxMs := 300000, pingIntervalMs := 30000 }

/-- A `dm_message` city event that carries no timestamp. -/
def evNoTs : CityEvent :=
  { seq := 7, eventType := "dm_message", from_ := some ⟨"u1", "Alice", none⟩,
    text := some "Hello", timestamp := none, metadata := CityEventMetadata.empty }

/-- A city event that carries its own timestamp. -/
def evWithTs : CityEvent :=
  { seq := 8, eventType := "dm_message", from_ := some ⟨"u1", "Alice", none⟩,
    text := some "Hi", timestamp := some 123456, metadata := CityEventMetadata.empty }

/-- Poison event of sequence 99 (from the test suite) whose dispatch rejects. -/
def ev99 : CityEvent :=
  { seq := 99, eventType := "dm_message", from_ := some ⟨"u1", "Eve", none⟩,
    text := some "crash", timestamp := some 5, metadata := CityEventMetadata.empty }

/-- A connected adapter state (after a successful welcome). -/
def stConnected : AdapterState :=
  { state := .CONNECTED, lastAckSeq := 0, attemptCount := 0, stopped := false,
    paused := false, reconnecting := false, pingActive := true, reconnectTimer := none,
    wsAttached := true, wsOpen := true, pendingConnect := false }

/-- A connected adapter state that has acknowledged sequence 42. -/
def stAck42 : AdapterState := { stConnected with lastAckSeq := 42 }

/-! ## Trace helpers -/

/-- The observable trace of one backlog dispatch: the consumer invocation
followed by its acknowledgment write (present iff the transport is open). -/
def eventTrace (tsNow : Nat) (isOpen : Bool) (e : CityEvent) : List Output :=
  .dispatch e (normalize tsNow e) :: (if isOpen then [.sent (.ack e.seq)] else [])

/-- The city events handed to the consumer callback, in trace order. -/
def dispatchedEvents (l : List Output) : List CityEvent :=
  l.filterMap fun o => match o with | .dispatch e _ => some e | _ => none

theorem handleCityEvent_trace (ok : CityEvent → Bool) (tsNow : Nat)
    (st : AdapterState) (e : CityEvent) :
    handleCityEvent ok tsNow st e =
      ({ st with lastAckSeq := e.seq }, eventTrace tsNow st.wsOpen e) := by
  cases hok : ok e <;> simp [handleCityEvent, hok, sendAck, sendOut, eventTrace]

theorem dispatchPendingEvents_fst (ok : CityEvent → Bool) (tsNow : Nat)
    (es : List CityEvent) : ∀ st : AdapterState,
    (dispatchPendingEvents ok tsNow st es).1.wsOpen = st.wsOpen := by
  induction es with
  | nil => intro st; rfl
  | cons e rest ih =>
      intro st
      simp [dispatchPendingEvents, handleCityEvent_trace, ih]

theorem dispatchPendingEvents_snd (ok : CityEvent → Bool) (tsNow : Nat)
    (es : List CityEvent) : ∀ st : AdapterState,
    (dispatchPendingEvents ok tsNow st es).2 = es.flatMap (eventTrace tsNow st.wsOpen) := by
  induction es with
  | nil => intro st; rfl
  | cons e rest ih =>
      intro st
      simp [dispatchPendingEvents, handleCityEvent_trace, ih]

theorem dispatchedEvents_eventTrace (tsNow : Nat) (isOpen : Bool) (e : CityEvent) :
    dispatchedEvents (eventTrace tsNow isOpen e) = [e] := by
  cases isOpen <;> simp [dispatchedEvents, eventTrace]

theorem dispatchedEvents_append (l₁ l₂ : List Output) :
    dispatchedEvents (l₁ ++ l₂) = dispatchedEvents l₁ ++ dispatchedEvents l₂ := by
  simp [dispatchedEvents]

theorem dispatchedEvents_flatMap (tsNow : Nat) (isOpen : Bool) (es : List CityEvent) :
    dispatchedEvents (es.flatMap (eventTrace tsNow isOpen)) = es := by
  induction es with
  | nil => rfl
  | cons e rest ih =>
      simp [List.flatMap_cons, dispatchedEvents_append, dispatchedEvents_eventTrace, ih]

/-! ## Stopped states are permanent -/

/-- A fully stopped adapter, as left behind by `stop()`: the stopped flag is
set, all timers are cleared, the socket is detached, and the externally
visible state is DISCONNECTED. -/
def Dead (st : AdapterState) : Prop :=
  st.stopped = true ∧ st.state = .DISCONNECTED ∧ st.reconnectTimer = none ∧
  st.wsAttached = false ∧ st.pingActive = false

theorem stop_dead (st : AdapterState) (h : st.stopped = false) : Dead (stop st).1 := by
  unfold stop setState
  simp only [h, Bool.false_eq_true, if_false]
  split <;> simp_all [Dead]

theorem dead_step (cfg : Config) (ok : CityEvent → Bool) (now : Nat) (u : ℚ)
    (st : AdapterState) (e : Ev) (h : Dead st) : step cfg ok now u st e = (st, []) := by
  obtain ⟨h1, h2, h3, h4, h5⟩ := h
  cases e <;> simp [step, connect, stop, h1, h3, h4, h5]

theorem dead_run (cfg : Config) (ok : CityEvent → Bool) (st : AdapterState)
    (h : Dead st) : ∀ evs, run cfg ok st evs = (st, []) := by
  intro evs
  induction evs with
  | nil => rfl
  | cons x rest ih =>
      obtain ⟨now, u, e⟩ := x
      simp [run, dead_step cfg ok now u st e h, ih]

theorem onMessageFrame_error_fatal (cfg : Config) (ok : CityEvent → Bool) (now : Nat)
    (u : ℚ) (st : AdapterState) (reason : String) (msg : Option String) (ra : Option ℚ)
    (hns : st.stopped = false)
    (hfatal : reason = "auth_failed" ∨ reason = "token_expired") :
    (onMessageFrame cfg ok now u st (.error reason msg ra)).1 =
      (stop { st with pendingConnect := false }).1 := by
  have hD := stop_dead ({ st with pendingConnect := false }) hns
  simp only [onMessageFrame, handleError]
  rw [if_pos hfatal]
  cases hp : st.pendingConnect <;> simp [connectCatchRun, hD.1]

/-! ## Claim C3: auth failure is fatal and permanent -/

/-- C3: receiving an error frame with reason `auth_failed` (from any
non-stopped state with a live socket) stops the adapter: the state becomes
DISCONNECTED with no reconnect timer, and every possible subsequent
sequence of events leaves the state unchanged and produces no output at
all — in particular no reconnect attempt is ever scheduled or made. -/
theorem auth_failed_permanently_disconnected (cfg : Config) (ok : CityEvent → Bool)
    (now : Nat) (u : ℚ) (st : AdapterState) (msg : Option String) (ra : Option ℚ)
    (hAtt : st.wsAttached = true) (hns : st.stopped = false) :
    (step cfg ok now u st (.wsMessage (.error "auth_failed" msg ra))).1.stopped = true ∧
    getState (step cfg ok now u st (.wsMessage (.error "auth_failed" msg ra))).1 = .DISCONNECTED ∧
    (step cfg ok now u st (.wsMessage (.error "auth_failed" msg ra))).1.reconnectTimer = none ∧
    ∀ evs, run cfg ok (step cfg ok now u st (.wsMessage (.error "auth_failed" msg ra))).1 evs =
      ((step cfg ok now u st (.wsMessage (.error "auth_failed" msg ra))).1, []) := by
  have hD : Dead (stop { st with pendingConnect := false }).1 :=
    stop_dead { st with pendingConnect := false } hns
  have h1 : step cfg ok now u st (.wsMessage (.error "auth_failed" msg ra)) =
      onMessageFrame cfg ok now u st (.error "auth_failed" msg ra) := by
    simp only [step, hAtt, if_true]
  have hstep : (step cfg ok now u st (.wsMessage (.error "auth_failed" msg ra))).1 =
      (stop { st with pendingConnect := false }).1 := by
    rw [h1]
    exact onMessageFrame_error_fatal cfg ok now u st _ msg ra hns (Or.inl rfl)
  rw [hstep]
  exact ⟨hD.1, hD.2.1, hD.2.2.1, fun evs => dead_run cfg ok _ hD evs⟩

theorem auth_failed_permanently_disconnected_witness :
    stConnected.wsAttached = true ∧ stConnected.stopped = false ∧
    (step cfgEx (fun _ => true) 0 0 stConnected
        (.wsMessage (.error "auth_failed" none none))).1.stopped = true ∧
    run cfgEx (fun _ => true)
        (step cfgEx (fun _ => true) 0 0 stConnected
          (.wsMessage (.error "auth_failed" none none))).1
        [(1000000, 0, .timerFire), (2000000, 0, .connectCall)] =
      ((step cfgEx (fun _ => true) 0 0 stConnected
          (.wsMessage (.error "auth_failed" none none))).1, []) :=
  ⟨rfl, rfl,
   (auth_failed_permanently_disconnected cfgEx (fun _ => true) 0 0 stConnected
      none none rfl rfl).1,
   (auth_failed_permanently_disconnected cfgEx (fun _ => true) 0 0 stConnected
      none none rfl rfl).2.2.2 _⟩

/-! ## Claim C4: supersession (close code 4000) -/

/-- C4 counterexample: in the handshake-frame revision the close listener
receives no close-code argument, so a supersession close (code 4000) from a
connected adapter is handled like any other close: the adapter does NOT
stop and a reconnect timer IS scheduled — refuting the claim that the
adapter "stops entirely, reaching a permanent DISCONNECTED state with no
reconnect timer scheduled" for that revision. -/
theorem supersession_reconnects_in_handshake_variant :
    ¬ ((onCloseHandshakeFrame cfgEx 0 0 stConnected 4000).1.stopped = true ∧
       (onCloseHandshakeFrame cfgEx 0 0 stConnected 4000).1.reconnectTimer = none) := by
  intro h
  have h2 := h.2
  simp [onCloseHandshakeFrame, stConnected, setState, scheduleReconnect] at h2

/-- C4 amended: in the upgrade-auth revision, a transport close with code
4000 (superseded by a newer connection) from a non-stopped adapter stops it
entirely: stopped flag set, DISCONNECTED, no reconnect timer, and every
subsequent event sequence leaves it unchanged with no output (no reconnect
is ever attempted).  The close handler of the handshake-frame revision ignores
the close code and schedules a reconnect instead (see the counterexample
above). -/
theorem supersession_close_stops_upgrade_auth (cfg : Config) (ok : CityEvent → Bool)
    (now : Nat) (u : ℚ) (st : AdapterState)
    (hAtt : st.wsAttached = true) (hns : st.stopped = false) :
    (step cfg ok now u st (.wsClose 4000)).1.stopped = true ∧
    getState (step cfg ok now u st (.wsClose 4000)).1 = .DISCONNECTED ∧
    (step cfg ok now u st (.wsClose 4000)).1.reconnectTimer = none ∧
    ∀ evs, run cfg ok (step cfg ok now u st (.wsClose 4000)).1 evs =
      ((step cfg ok now u st (.wsClose 4000)).1, []) := by
  have hstep : (step cfg ok now u st (.wsClose 4000)).1 =
      (stop { st with wsAttached := false, wsOpen := false, pingActive := false }).1 := by
    simp [step, hAtt, onCloseUpgradeAuth, hns]
  have hD : Dead (stop { st with wsAttached := false, wsOpen := false, pingActive := false }).1 :=
    stop_dead _ hns
  rw [hstep]
  exact ⟨hD.1, hD.2.1, hD.2.2.1, fun evs => dead_run cfg ok _ hD evs⟩

theorem supersession_close_stops_upgrade_auth_witness :
    stConnected.wsAttached = true ∧ stConnected.stopped = false ∧
    (step cfgEx (fun _ => true) 0 0 stConnected (.wsClose 4000)).1.stopped = true ∧
    run cfgEx (fun _ => true)
        (step cfgEx (fun _ => true) 0 0 stConnected (.wsClose 4000)).1
        [(5000, 0, .timerFire), (600000, 0, .timerFire)] =
      ((step cfgEx (fun _ => true) 0 0 stConnected (.wsClose 4000)).1, []) :=
  ⟨rfl, rfl,
   (supersession_close_stops_upgrade_auth cfgEx (fun _ => true) 0 0 stConnected rfl rfl).1,
   (supersession_close_stops_upgrade_auth cfgEx (fun _ => true) 0 0 stConnected rfl rfl).2.2.2 _⟩

/-! ## Claim C1: backlog dispatch order -/

/-- C1: for every welcome frame, the backlog is dispatched sequentially and
in list order: the whole output trace of `handleWelcome` is the
concatenation of the per-event traces — the consumer dispatch of each event and
its acknowledgment complete before the dispatch of the next event begins — and
the sequence of consumer-callback invocations is exactly the backlog. -/
theorem backlog_dispatched_sequentially (ok : CityEvent → Bool) (tsNow : Nat)
    (st : AdapterState) (w : WelcomeFrame) :
    (handleWelcome ok tsNow st w).2 =
      (setState st .CONNECTED).2 ++ [Output.welcomeHook] ++
        w.pending.flatMap (eventTrace tsNow st.wsOpen) ∧
    dispatchedEvents (handleWelcome ok tsNow st w).2 = w.pending := by
  have hsnd : (handleWelcome ok tsNow st w).2 =
      (setState st .CONNECTED).2 ++ [Output.welcomeHook] ++
        w.pending.flatMap (eventTrace tsNow st.wsOpen) := by
    have hset : ((setState st .CONNECTED).1).wsOpen = st.wsOpen := by
      unfold setState; split <;> rfl
    simp [handleWelcome, dispatchPendingEvents_snd, hset]
  refine ⟨hsnd, ?_⟩
  rw [hsnd]
  have hnot : dispatchedEvents ((setState st .CONNECTED).2 ++ [Output.welcomeHook]) = [] := by
    unfold setState; split <;> simp [dispatchedEvents]
  rw [dispatchedEvents_append, hnot, dispatchedEvents_flatMap]
  rfl

/-! ## Claim C2: at-least-once acknowledgment under consumer failure -/

/-- C2: when the consumer callback rejects for an event (`ok e = false`)
while the transport is open, the dispatch routine still sends an ack frame
for that sequence and `getLastAckSeq()` becomes that sequence; the routine
is a total function (the exception never escapes). -/
theorem failing_consumer_still_acked (ok : CityEvent → Bool) (tsNow : Nat)
    (st : AdapterState) (e : CityEvent) (_hfail : ok e = false)
    (hopen : st.wsOpen = true) :
    getLastAckSeq (handleCityEvent ok tsNow st e).1 = e.seq ∧
    Output.sent (.ack e.seq) ∈ (handleCityEvent ok tsNow st e).2 := by
  simp [handleCityEvent_trace, eventTrace, hopen, getLastAckSeq]

theorem failing_consumer_still_acked_witness :
    (fun _ : CityEvent => false) ev99 = false ∧ stConnected.wsOpen = true ∧
    (getLastAckSeq (handleCityEvent (fun _ : CityEvent => false) 0 stConnected ev99).1 = ev99.seq ∧
     Output.sent (.ack ev99.seq) ∈ (handleCityEvent (fun _ : CityEvent => false) 0 stConnected ev99).2) :=
  ⟨rfl, rfl, failing_consumer_still_acked (fun _ => false) 0 stConnected ev99 rfl rfl⟩

/-! ## Claim C6: backoff bounds -/

/-- C6: for every attempt count and every jitter sample `u ∈ [0, 1]` of
`Math.random()`, `calculateBackoff` lies within
`[max(100, cap·0.7), cap·1.3]` where `cap = min(base·2^attempt, max)`,
provided the configured base and max delays are at least the 100 ms floor
(the source defaults are 3000 ms and 300000 ms). -/
theorem calculateBackoff_within_bounds (cfg : Config) (attempt : Nat) (u : ℚ)
    (hbase : 100 ≤ cfg.reconnectBaseMs) (hmax : 100 ≤ cfg.reconnectMaxMs)
    (hu0 : 0 ≤ u) (hu1 : u ≤ 1) :
    max 100 (min (cfg.reconnectBaseMs * 2 ^ attempt) cfg.reconnectMaxMs * (7/10))
      ≤ calculateBackoff cfg attempt u ∧
    calculateBackoff cfg attempt u
      ≤ min (cfg.reconnectBaseMs * 2 ^ attempt) cfg.reconnectMaxMs * (13/10) := by
  have h2 : (1 : ℚ) ≤ 2 ^ attempt := by
    induction attempt with
    | zero => norm_num
    | succ n ih => rw [pow_succ]; nlinarith
  have hb0 : (0 : ℚ) ≤ cfg.reconnectBaseMs := by linarith
  have h3 : cfg.reconnectBaseMs * 1 ≤ cfg.reconnectBaseMs * 2 ^ attempt :=
    mul_le_mul_of_nonneg_left h2 hb0
  have hcap100 : (100 : ℚ) ≤ min (cfg.reconnectBaseMs * 2 ^ attempt) cfg.reconnectMaxMs :=
    le_min (by linarith) hmax
  set c : ℚ := min (cfg.reconnectBaseMs * 2 ^ attempt) cfg.reconnectMaxMs with hc
  have hcu : 0 ≤ c * u := mul_nonneg (by linarith) hu0
  have hc1u : 0 ≤ c * (1 - u) := mul_nonneg (by linarith) (by linarith)
  constructor
  · apply max_le (le_max_left _ _)
    calc c * (7/10) ≤ c + c * (3/10) * (u * 2 - 1) := by nlinarith
      _ ≤ calculateBackoff cfg attempt u := by
          simp only [calculateBackoff, ← hc]
          exact le_max_right _ _
  · have hup : c + c * (3/10) * (u * 2 - 1) ≤ c * (13/10) := by nlinarith
    have h100 : (100 : ℚ) ≤ c * (13/10) := by nlinarith
    simp only [calculateBackoff, ← hc]
    exact max_le h100 hup

theorem calculateBackoff_within_bounds_witness :
    ((100 : ℚ) ≤ cfgEx.reconnectBaseMs ∧ (100 : ℚ) ≤ cfgEx.reconnectMaxMs ∧
      (0 : ℚ) ≤ 1/2 ∧ (1/2 : ℚ) ≤ 1) ∧
    (max 100 (min (cfgEx.reconnectBaseMs * 2 ^ 3) cfgEx.reconnectMaxMs * (7/10))
        ≤ calculateBackoff cfgEx 3 (1/2) ∧
      calculateBackoff cfgEx 3 (1/2)
        ≤ min (cfgEx.reconnectBaseMs * 2 ^ 3) cfgEx.reconnectMaxMs * (13/10)) :=
  ⟨⟨by norm_num [cfgEx], by norm_num [cfgEx], by norm_num, by norm_num⟩,
   calculateBackoff_within_bounds cfgEx 3 (1/2)
     (by norm_num [cfgEx]) (by norm_num [cfgEx]) (by norm_num) (by norm_num)⟩

/-! ## Claim C7: handshake selection -/

/-- C7: on transport open with `lastAckSeq = 0` the handshake is a fresh
`hello` and the upgrade-auth URL carries no watermark parameter; with
`lastAckSeq > 0` the handshake is a `resume` frame carrying exactly that
watermark and the URL carries the `lastAckSeq` parameter; and in the
handshake-frame variant the only outbound write of the open step is that
handshake frame. -/
theorem handshake_resume_selection (cfg : Config) (st : AdapterState) :
    (st.lastAckSeq = 0 →
      handshakeFrame cfg st.lastAckSeq = .hello 1 cfg.botId cfg.token ∧
      openSocketUrlParams cfg st = [("token", cfg.token), ("botId", cfg.botId)]) ∧
    (0 < st.lastAckSeq →
      handshakeFrame cfg st.lastAckSeq = .resume 1 cfg.botId cfg.token st.lastAckSeq ∧
      ("lastAckSeq", toString st.lastAckSeq) ∈ openSocketUrlParams cfg st) ∧
    (st.stopped = false →
      (onOpenHandshakeFrame cfg st).2 = [Output.sent (handshakeFrame cfg st.lastAckSeq)]) := by
  refine ⟨?_, ?_, ?_⟩
  · intro h
    constructor
    · simp [handshakeFrame, h]
    · simp [openSocketUrlParams, h]
  · intro h
    constructor
    · simp [handshakeFrame, h]
    · simp [openSocketUrlParams, h]
  · intro h
    simp [onOpenHandshakeFrame, h, sendHandshake, sendOut]

theorem handshake_resume_selection_witness :
    (initialState.lastAckSeq = 0 ∧
      (handshakeFrame cfgEx initialState.lastAckSeq = .hello 1 cfgEx.botId cfgEx.token ∧
        openSocketUrlParams cfgEx initialState = [("token", cfgEx.token), ("botId", cfgEx.botId)])) ∧
    (0 < stAck42.lastAckSeq ∧
      (handshakeFrame cfgEx stAck42.lastAckSeq = .resume 1 cfgEx.botId cfgEx.token stAck42.lastAckSeq ∧
        ("lastAckSeq", toString stAck42.lastAckSeq) ∈ openSocketUrlParams cfgEx stAck42)) ∧
    (stAck42.stopped = false ∧
      (onOpenHandshakeFrame cfgEx stAck42).2 = [Output.sent (handshakeFrame cfgEx stAck42.lastAckSeq)]) :=
  ⟨⟨rfl, (handshake_resume_selection cfgEx initialState).1 rfl⟩,
   ⟨by decide, (handshake_resume_selection cfgEx stAck42).2.1 (by decide)⟩,
   ⟨rfl, (handshake_resume_selection cfgEx stAck42).2.2 rfl⟩⟩

/-! ## Claim C5: rate-limit cooldown -/

/-- Jittered backoff delays are always nonnegative (floored at 100 ms). -/
theorem calculateBackoff_nonneg (cfg : Config) (attempt : Nat) (u : ℚ) :
    (0 : ℚ) ≤ calculateBackoff cfg attempt u :=
  le_trans (by norm_num) (le_max_left _ _)

theorem setState_proj (st : AdapterState) (s : ConnectionState) :
    (setState st s).1.reconnectTimer = st.reconnectTimer ∧
    (setState st s).1.stopped = st.stopped := by
  unfold setState; split <;> exact ⟨rfl, rfl⟩

theorem setState_no_attempt (st : AdapterState) (s : ConnectionState) :
    Output.connectAttempt ∉ (setState st s).2 := by
  unfold setState; split <;> simp

theorem stop_no_attempt (st : AdapterState) :
    Output.connectAttempt ∉ (stop st).2 := by
  unfold stop
  split
  · simp
  · exact setState_no_attempt _ _

theorem connect_proj (st : AdapterState) :
    (connect st).1.reconnectTimer = st.reconnectTimer ∧
    (connect st).1.stopped = st.stopped := by
  have h := setState_proj st .CONNECTING
  unfold connect
  split
  · exact ⟨rfl, rfl⟩
  · exact ⟨h.1, h.2⟩

/-- A timer installed by `scheduleReconnect` was either already there or is
due no earlier than the scheduling time (the backoff delay is
nonnegative). -/
theorem scheduleReconnect_due (cfg : Config) (now : Nat) (u : ℚ) (st : AdapterState)
    (tm : TimerInfo) (h : (scheduleReconnect cfg now u st).reconnectTimer = some tm) :
    st.reconnectTimer = some tm ∨ (now : ℚ) ≤ tm.due := by
  unfold scheduleReconnect at h
  split at h
  · exact Or.inl h
  · simp only [Option.some.injEq] at h
    right
    rw [← h]
    have hnn := calculateBackoff_nonneg cfg st.attemptCount u
    dsimp only
    linarith

theorem dispatchPendingEvents_proj (ok : CityEvent → Bool) (tsNow : Nat)
    (es : List CityEvent) : ∀ st : AdapterState,
    (dispatchPendingEvents ok tsNow st es).1.reconnectTimer = st.reconnectTimer ∧
    (dispatchPendingEvents ok tsNow st es).1.stopped = st.stopped := by
  induction es with
  | nil => intro st; exact ⟨rfl, rfl⟩
  | cons e rest ih => intro st; simp [dispatchPendingEvents, handleCityEvent_trace, ih]

theorem handleWelcome_proj (ok : CityEvent → Bool) (tsNow : Nat) (st : AdapterState)
    (w : WelcomeFrame) :
    (handleWelcome ok tsNow st w).1.reconnectTimer = st.reconnectTimer ∧
    (handleWelcome ok tsNow st w).1.stopped = st.stopped := by
  have hset := setState_proj st .CONNECTED
  simp [handleWelcome, dispatchPendingEvents_proj, hset.1, hset.2]

theorem attempt_not_in_eventTrace (tsNow : Nat) (isOpen : Bool) (e : CityEvent) :
    Output.connectAttempt ∉ eventTrace tsNow isOpen e := by
  cases isOpen <;> simp [eventTrace]

theorem attempt_not_in_backlog (tsNow : Nat) (isOpen : Bool) (es : List CityEvent) :
    Output.connectAttempt ∉ es.flatMap (eventTrace tsNow isOpen) := by
  induction es with
  | nil => simp
  | cons e rest ih => simp [List.flatMap_cons, attempt_not_in_eventTrace tsNow isOpen e, ih]

theorem handleWelcome_no_attempt (ok : CityEvent → Bool) (tsNow : Nat)
    (st : AdapterState) (w : WelcomeFrame) :
    Output.connectAttempt ∉ (handleWelcome ok tsNow st w).2 := by
  rw [(backlog_dispatched_sequentially ok tsNow st w).1]
  intro h
  rcases List.mem_append.mp h with h1 | h2
  · rcases List.mem_append.mp h1 with h3 | h4
    · exact setState_no_attempt _ _ h3
    · simp at h4
  · exact attempt_not_in_backlog _ _ _ h2

/-- Event classes that neither invoke the public API nor deliver a fresh
server error frame: plain socket activity, non-error frames, and timer and
ping expirations. -/
def benignEv : Ev → Bool
  | .connectCall => false
  | .stopCall => false
  | .wsMessage (.error _ _ _) => false
  | _ => true

/-- The times of a timed-event list are nondecreasing, starting at or after
`t`. -/
def timesFrom (t : Nat) : List (Nat × ℚ × Ev) → Prop
  | [] => True
  | (t1, _, _) :: rest => t ≤ t1 ∧ timesFrom t1 rest

/-- Cooldown safety invariant at current time `t`: every installed
reconnect timer is due no earlier than `D`, and if no timer is installed
the adapter is either stopped or `D` has already passed. -/
def CooldownInv (D : ℚ) (t : Nat) (st : AdapterState) : Prop :=
  (∀ tm, st.reconnectTimer = some tm → D ≤ tm.due) ∧
  (st.reconnectTimer = none → st.stopped = true ∨ D ≤ (t : ℚ))

theorem cooldownInv_transfer (D : ℚ) (t t1 : Nat) (st st1 : AdapterState)
    (hmono : (t : ℚ) ≤ (t1 : ℚ))
    (htm : st1.reconnectTimer = st.reconnectTimer) (hst : st1.stopped = st.stopped)
    (hinv : CooldownInv D t st) : CooldownInv D t1 st1 := by
  obtain ⟨hsome, hnone⟩ := hinv
  constructor
  · intro tm h; rw [htm] at h; exact hsome tm h
  · intro h; rw [htm] at h; rw [hst]
    rcases hnone h with h1 | h1
    · exact Or.inl h1
    · exact Or.inr (le_trans h1 hmono)

/-- Any state with no installed timer satisfies the invariant once `D` has
been reached. -/
theorem cooldownInv_of_past {D : ℚ} {t1 : Nat} (hDt : D ≤ (t1 : ℚ))
    (st1 : AdapterState) (hn : st1.reconnectTimer = none) : CooldownInv D t1 st1 :=
  ⟨fun _tm h => Option.noConfusion (hn ▸ h), fun _ => Or.inr hDt⟩

/-- The upgrade-auth close handler preserves the cooldown invariant and
makes no connection attempt. -/
theorem onClose_cooldown (cfg : Config) (t t1 : Nat) (u : ℚ) (A : AdapterState)
    (code : Nat) (D : ℚ) (hmq : (t : ℚ) ≤ (t1 : ℚ))
    (hsome : ∀ tm, A.reconnectTimer = some tm → D ≤ tm.due)
    (hnone : A.reconnectTimer = none → A.stopped = true ∨ D ≤ (t : ℚ)) :
    CooldownInv D t1 (onCloseUpgradeAuth cfg t1 u A code).1 ∧
    (Output.connectAttempt ∈ (onCloseUpgradeAuth cfg t1 u A code).2 → D ≤ (t1 : ℚ)) := by
  simp only [onCloseUpgradeAuth]
  by_cases hstop : A.stopped = true
  · rw [if_pos (show (({ A with pingActive := false } : AdapterState)).stopped = true from hstop)]
    exact ⟨cooldownInv_transfer D t t1 A _ hmq rfl rfl ⟨hsome, hnone⟩, by simp⟩
  · rw [if_neg (show ¬ (({ A with pingActive := false } : AdapterState)).stopped = true from hstop)]
    by_cases hc : code = 4000
    · rw [if_pos hc]
      have hns : (({ A with pingActive := false } : AdapterState)).stopped = false := by
        simpa using hstop
      have hD := stop_dead _ hns
      refine ⟨⟨fun tm h => ?_, fun _ => Or.inl hD.1⟩,
        fun h => absurd h (stop_no_attempt _)⟩
      rw [hD.2.2.1] at h
      cases h
    · rw [if_neg hc]
      by_cases hsome1 :
          ((setState ({ A with pingActive := false } : AdapterState) .DISCONNECTED).1).reconnectTimer.isSome = true
      · rw [if_pos hsome1]
        exact ⟨cooldownInv_transfer D t t1 A _ hmq
            ((setState_proj _ _).1.trans rfl) ((setState_proj _ _).2.trans rfl) ⟨hsome, hnone⟩,
          fun h => absurd h (setState_no_attempt _ _)⟩
      · rw [if_neg hsome1]
        have h2 : ¬ A.reconnectTimer.isSome = true := by
          rw [(setState_proj _ _).1] at hsome1
          exact hsome1
        have htnone : A.reconnectTimer = none := Option.not_isSome_iff_eq_none.mp h2
        have hDt : D ≤ (t1 : ℚ) := by
          rcases hnone htnone with h1 | h1
          · exact absurd h1 hstop
          · exact le_trans h1 hmq
        refine ⟨⟨?_, fun _ => Or.inr hDt⟩,
          fun h => absurd h (setState_no_attempt _ _)⟩
        intro tm h
        rcases scheduleReconnect_due cfg t1 u _ tm h with h1 | h1
        · rw [(setState_proj _ _).1] at h1
          have h1x : A.reconnectTimer = some tm := h1
          rw [htnone] at h1x
          cases h1x
        · exact le_trans hDt h1

/-- One benign step preserves the cooldown invariant, and any connection
attempt it makes happens at or after `D`. -/
theorem cooldown_step (cfg : Config) (ok : CityEvent → Bool) (D : ℚ) (t t1 : Nat)
    (u : ℚ) (st : AdapterState) (e : Ev) (hb : benignEv e = true) (hmono : t ≤ t1)
    (hinv : CooldownInv D t st) :
    CooldownInv D t1 (step cfg ok t1 u st e).1 ∧
    (Output.connectAttempt ∈ (step cfg ok t1 u st e).2 → D ≤ (t1 : ℚ)) := by
  have hmq : (t : ℚ) ≤ (t1 : ℚ) := by exact_mod_cast hmono
  obtain ⟨hsome, hnone⟩ := hinv
  cases e with
  | connectCall => simp [benignEv] at hb
  | stopCall => simp [benignEv] at hb
  | wsOpenEv =>
      simp only [step]
      split
      · split
        · refine ⟨cooldownInv_transfer D t t1 st _ hmq ?_ ?_ ⟨hsome, hnone⟩, by simp⟩ <;> rfl
        · refine ⟨cooldownInv_transfer D t t1 st _ hmq ?_ ?_ ⟨hsome, hnone⟩, by simp⟩ <;> rfl
      · refine ⟨cooldownInv_transfer D t t1 st _ hmq ?_ ?_ ⟨hsome, hnone⟩, by simp⟩ <;> rfl
  | pingTick =>
      simp only [step]
      split
      · refine ⟨cooldownInv_transfer D t t1 st _ hmq ?_ ?_ ⟨hsome, hnone⟩, ?_⟩
        · rfl
        · rfl
        · split <;> simp
      · refine ⟨cooldownInv_transfer D t t1 st _ hmq ?_ ?_ ⟨hsome, hnone⟩, by simp⟩ <;> rfl
  | wsError =>
      simp only [step]
      split
      · split
        · unfold connectCatchRun
          split
          · refine ⟨cooldownInv_transfer D t t1 st _ hmq ?_ ?_ ⟨hsome, hnone⟩, by simp⟩ <;> rfl
          · split
            · refine ⟨cooldownInv_transfer D t t1 st _ hmq ?_ ?_ ⟨hsome, hnone⟩, by simp⟩ <;> rfl
            · rename_i hnstop hnotsome
              have h2 : ¬ st.reconnectTimer.isSome = true := hnotsome
              have htnone : st.reconnectTimer = none :=
                Option.not_isSome_iff_eq_none.mp h2
              have hDt : D ≤ (t1 : ℚ) := by
                rcases hnone htnone with h1 | h1
                · exact absurd h1 (by simpa using hnstop)
                · exact le_trans h1 hmq
              refine ⟨⟨?_, fun _ => Or.inr hDt⟩, by simp⟩
              intro tm h
              rcases scheduleReconnect_due cfg t1 u _ tm h with h1 | h1
              · have h1x : st.reconnectTimer = some tm := h1
                rw [htnone] at h1x
                cases h1x
              · exact le_trans hDt h1
        · refine ⟨cooldownInv_transfer D t t1 st _ hmq ?_ ?_ ⟨hsome, hnone⟩, by simp⟩ <;> rfl
      · refine ⟨cooldownInv_transfer D t t1 st _ hmq ?_ ?_ ⟨hsome, hnone⟩, by simp⟩ <;> rfl
  | timerFire =>
      cases htm : st.reconnectTimer with
      | none =>
          have hstep : step cfg ok t1 u st .timerFire = (st, []) := by
            simp [step, htm]
          rw [hstep]
          refine ⟨cooldownInv_transfer D t t1 st _ hmq ?_ ?_ ⟨hsome, hnone⟩, by simp⟩ <;> rfl
      | some tm =>
          have hDdue : D ≤ tm.due := hsome tm htm
          by_cases hdue : tm.due ≤ (t1 : ℚ)
          · have hDt : D ≤ (t1 : ℚ) := le_trans hDdue hdue
            refine ⟨?_, fun _ => hDt⟩
            simp only [step, htm]
            rw [if_pos hdue]
            split
            · split
              · exact cooldownInv_of_past hDt _ rfl
              · exact cooldownInv_of_past hDt _ ((connect_proj _).1.trans rfl)
            · split
              · exact cooldownInv_of_past hDt _ rfl
              · exact cooldownInv_of_past hDt _ ((connect_proj _).1.trans rfl)
          · have hstep : step cfg ok t1 u st .timerFire = (st, []) := by
              simp [step, htm, hdue]
            rw [hstep]
            refine ⟨cooldownInv_transfer D t t1 st _ hmq ?_ ?_ ⟨hsome, hnone⟩, by simp⟩ <;> rfl
  | wsClose code =>
      simp only [step]
      split
      · exact onClose_cooldown cfg t t1 u _ code D hmq
          (fun tm h => hsome tm h) (fun h => hnone h)
      · refine ⟨cooldownInv_transfer D t t1 st _ hmq ?_ ?_ ⟨hsome, hnone⟩, by simp⟩ <;> rfl
  | wsMessage f =>
      simp only [step]
      split
      · cases f with
        | welcome w =>
            simp only [onMessageFrame]
            refine ⟨cooldownInv_transfer D t t1 st _ hmq ?_ ?_ ⟨hsome, hnone⟩,
              fun h => absurd h (handleWelcome_no_attempt _ _ _ _)⟩
            · exact (handleWelcome_proj _ _ _ _).1.trans rfl
            · exact (handleWelcome_proj _ _ _ _).2.trans rfl
        | error reason msg ra => simp [benignEv] at hb
        | city_event ce =>
            simp only [onMessageFrame]
            rw [handleCityEvent_trace]
            refine ⟨cooldownInv_transfer D t t1 st _ hmq ?_ ?_ ⟨hsome, hnone⟩, ?_⟩
            · rfl
            · rfl
            intro h
            exact absurd h (attempt_not_in_eventTrace _ _ _)
        | action_result s =>
            simp only [onMessageFrame]
            refine ⟨cooldownInv_transfer D t t1 st _ hmq ?_ ?_ ⟨hsome, hnone⟩, by simp⟩ <;> rfl
        | pausedFrame m =>
            simp only [onMessageFrame]
            refine ⟨cooldownInv_transfer D t t1 st _ hmq ?_ ?_ ⟨hsome, hnone⟩, by simp⟩ <;> rfl
        | resumedFrame =>
            simp only [onMessageFrame]
            refine ⟨cooldownInv_transfer D t t1 st _ hmq ?_ ?_ ⟨hsome, hnone⟩, by simp⟩ <;> rfl
        | unknownFrame tag =>
            simp only [onMessageFrame]
            refine ⟨cooldownInv_transfer D t t1 st _ hmq ?_ ?_ ⟨hsome, hnone⟩, by simp⟩ <;> rfl
      · refine ⟨cooldownInv_transfer D t t1 st _ hmq ?_ ?_ ⟨hsome, hnone⟩, by simp⟩ <;> rfl

/-- Benign runs never make a connection attempt before `D` once the
cooldown invariant holds. -/
theorem cooldown_run (cfg : Config) (ok : CityEvent → Bool) (D : ℚ) :
    ∀ (evs : List (Nat × ℚ × Ev)) (t : Nat) (st : AdapterState),
      (∀ x ∈ evs, benignEv x.2.2 = true) → timesFrom t evs → CooldownInv D t st →
      ∀ p ∈ (runTimed cfg ok st evs).2, p.2 = Output.connectAttempt → D ≤ (p.1 : ℚ) := by
  intro evs
  induction evs with
  | nil =>
      intro t st _ _ _ p hp
      simp [runTimed] at hp
  | cons x rest ih =>
      obtain ⟨t1, u, e⟩ := x
      intro t st hb hm hinv p hp hatt
      obtain ⟨hs, hr⟩ := cooldown_step cfg ok D t t1 u st e
        (hb _ (List.mem_cons_self _ _)) hm.1 hinv
      simp only [runTimed, List.mem_append] at hp
      rcases hp with hp | hp
      · rcases List.mem_map.mp hp with ⟨o, ho, rfl⟩
        exact hr (hatt ▸ ho)
      · exact ih t1 (step cfg ok t1 u st e).1
          (fun y hy => hb y (List.mem_cons_of_mem _ hy)) hm.2 hs p hp hatt

/-- C5: an error frame with reason `rate_limited` and a positive numeric
`retryAfter` (received on a live, non-stopped adapter) replaces any
existing reconnect timer with one due exactly `retryAfter` seconds later,
installed by the rate-limit branch rather than the backoff schedule
(`isRateLimit = true`, due time independent of the attempt counter); in any
quiet continuation (no further error frames, no external API calls) no
connection attempt happens before that due time; the timer cannot fire
early; and firing it at/after the due time makes exactly one connection
attempt and uninstalls the timer. -/
theorem rate_limited_cooldown (cfg : Config) (ok : CityEvent → Bool) (now : Nat)
    (u : ℚ) (st : AdapterState) (msg : Option String) (d : ℚ)
    (hd : 0 < d) (hAtt : st.wsAttached = true) (hns : st.stopped = false) :
    ∀ st1, st1 = (step cfg ok now u st (.wsMessage (.error "rate_limited" msg (some d)))).1 →
      st1.reconnectTimer = some ⟨(now : ℚ) + d * 1000, true⟩ ∧
      st1.stopped = false ∧
      (∀ evs, (∀ x ∈ evs, benignEv x.2.2 = true) → timesFrom now evs →
        ∀ p ∈ (runTimed cfg ok st1 evs).2, p.2 = Output.connectAttempt →
          (now : ℚ) + d * 1000 ≤ (p.1 : ℚ)) ∧
      (∀ (t1 : Nat) (u1 : ℚ), (t1 : ℚ) < (now : ℚ) + d * 1000 →
        step cfg ok t1 u1 st1 .timerFire = (st1, [])) ∧
      (∀ (t1 : Nat) (u1 : ℚ), (now : ℚ) + d * 1000 ≤ (t1 : ℚ) →
        (step cfg ok t1 u1 st1 .timerFire).2.count Output.connectAttempt = 1 ∧
        (step cfg ok t1 u1 st1 .timerFire).1.reconnectTimer = none) := by
  intro st1 hst1
  have hdne : d ≠ 0 := ne_of_gt hd
  have hchar : st1 =
      { st with
          pendingConnect := false
          reconnectTimer := some ⟨(now : ℚ) + d * 1000, true⟩ } := by
    rw [hst1]
    cases hp : st.pendingConnect <;>
      simp [step, hAtt, onMessageFrame, handleError, truthyRetryAfter, hp, hdne,
        hns, connectCatchRun]
  have htm : st1.reconnectTimer = some ⟨(now : ℚ) + d * 1000, true⟩ := by
    rw [hchar]
  have hstop1 : st1.stopped = false := by rw [hchar]; exact hns
  refine ⟨htm, hstop1, ?_, ?_, ?_⟩
  · intro evs hb hm
    apply cooldown_run cfg ok ((now : ℚ) + d * 1000) evs now st1 hb hm
    constructor
    · intro tm h
      rw [htm] at h
      simp only [Option.some.injEq] at h
      rw [← h]
    · intro h
      rw [htm] at h
      cases h
  · intro t1 u1 hlt
    simp [step, htm, not_le.mpr hlt]
  · intro t1 u1 hge
    have hstep : step cfg ok t1 u1 st1 .timerFire =
        connect { st1 with reconnectTimer := none } := by
      simp [step, htm, hge, hstop1]
    rw [hstep]
    constructor
    · have hconn : (connect { st1 with reconnectTimer := none }).2 =
          (setState { st1 with reconnectTimer := none } .CONNECTING).2 ++
            [Output.connectAttempt] := by
        simp [connect, hstop1]
      rw [hconn, List.count_append]
      have h0 : (setState { st1 with reconnectTimer := none } .CONNECTING).2.count
          Output.connectAttempt = 0 :=
        List.count_eq_zero.mpr (setState_no_attempt _ _)
      rw [h0]
      rfl
    · exact (connect_proj _).1.trans rfl

theorem rate_limited_cooldown_witness :
    (0 : ℚ) < 5 ∧ stConnected.wsAttached = true ∧ stConnected.stopped = false ∧
    (step cfgEx (fun _ => true) 0 0 stConnected
        (.wsMessage (.error "rate_limited" none (some 5)))).1.reconnectTimer =
      some ⟨((0 : Nat) : ℚ) + 5 * 1000, true⟩ ∧
    ((step cfgEx (fun _ => true) 6000 0
        (step cfgEx (fun _ => true) 0 0 stConnected
          (.wsMessage (.error "rate_limited" none (some 5)))).1 .timerFire).2.count
        Output.connectAttempt = 1 ∧
      (step cfgEx (fun _ => true) 6000 0
        (step cfgEx (fun _ => true) 0 0 stConnected
          (.wsMessage (.error "rate_limited" none (some 5)))).1
          .timerFire).1.reconnectTimer = none) :=
  ⟨by norm_num, rfl, rfl,
   (rate_limited_cooldown cfgEx (fun _ => true) 0 0 stConnected none 5
      (by norm_num) rfl rfl _ rfl).1,
   (rate_limited_cooldown cfgEx (fun _ => true) 0 0 stConnected none 5
      (by norm_num) rfl rfl _ rfl).2.2.2.2 6000 0 (by push_cast; norm_num)⟩

/-! ## Claim C8: sendAck semantics -/

/-- C8: `sendAck(seq)` overwrites the watermark unconditionally (the whole
state change is exactly `lastAckSeq := seq`, so a lower sequence regresses
the watermark and the last write wins), and the ack frame is written iff
the transport is currently open — otherwise it is silently dropped while
the watermark still updates. -/
theorem sendAck_raw_overwrite (st : AdapterState) (seq : Nat) :
    (sendAck st seq).1 = { st with lastAckSeq := seq } ∧
    getLastAckSeq (sendAck st seq).1 = seq ∧
    (sendAck st seq).2 = (if st.wsOpen then [Output.sent (.ack seq)] else []) :=
  ⟨rfl, rfl, rfl⟩

/-! ## Claim C9: normalization determinism -/

/-- C9 counterexample: the claim "normalizing it twice yields structurally
identical envelopes / normalize is a deterministic function of the event"
is false as stated: for an event without a server timestamp the envelope
embeds the local capture time (`Date.now()`), so two normalizations at
different instants differ. -/
theorem normalize_clock_dependent : ¬ (normalize 0 evNoTs = normalize 1 evNoTs) := by
  decide

/-- C9 amended: the synthetic id (`occ-` + seq), sender, text and metadata
of the envelope are deterministic functions of the event alone, and the
full envelope is reproducible whenever the event carries its own
timestamp; only the timestamp fallback depends on the local clock. -/
theorem normalize_deterministic_components (a b : Nat) (e : CityEvent) :
    (normalize a e).id = (normalize b e).id ∧
    (normalize a e).sender = (normalize b e).sender ∧
    (normalize a e).content = (normalize b e).content ∧
    (normalize a e).metadata = (normalize b e).metadata ∧
    (normalize a e).channelId = (normalize b e).channelId ∧
    (∀ t, e.timestamp = some t → normalize a e = normalize b e) := by
  refine ⟨rfl, rfl, rfl, rfl, rfl, ?_⟩
  intro t ht
  simp [normalize, ht]

theorem normalize_deterministic_components_witness :
    evWithTs.timestamp = some 123456 ∧ normalize 0 evWithTs = normalize 999 evWithTs :=
  ⟨rfl, (normalize_deterministic_components 0 999 evWithTs).2.2.2.2.2 123456 rfl⟩

/-! ## Claim C10: state-change notifications only on actual transitions -/

/-- The state-change notifications delivered to `onStateChange`, in trace
order. -/
def stateNotifs (l : List Output) : List ConnectionState :=
  l.filterMap fun o => match o with | .stateChange s => some s | _ => none

/-- Predicate stating that `prev :: l` contains no two adjacent equal entries. -/
def noDupFrom (prev : ConnectionState) : List ConnectionState → Prop
  | [] => True
  | x :: xs => prev ≠ x ∧ noDupFrom x xs

/-- The last notification of the list, or `prev` if there is none. -/
def lastNotif (prev : ConnectionState) (l : List ConnectionState) : ConnectionState :=
  l.foldl (fun _ x => x) prev

theorem stateNotifs_append (l1 l2 : List Output) :
    stateNotifs (l1 ++ l2) = stateNotifs l1 ++ stateNotifs l2 := by
  simp [stateNotifs]

theorem lastNotif_append (p : ConnectionState) (l1 l2 : List ConnectionState) :
    lastNotif p (l1 ++ l2) = lastNotif (lastNotif p l1) l2 := by
  simp [lastNotif, List.foldl_append]

theorem noDupFrom_append (l1 : List ConnectionState) :
    ∀ (p : ConnectionState) (l2 : List ConnectionState),
    noDupFrom p (l1 ++ l2) ↔ noDupFrom p l1 ∧ noDupFrom (lastNotif p l1) l2 := by
  induction l1 with
  | nil => intro p l2; simp [noDupFrom, lastNotif]
  | cons x xs ih =>
      intro p l2
      simp only [List.cons_append, noDupFrom, List.append_eq]
      rw [ih]
      rw [show lastNotif p (x :: xs) = lastNotif x xs from rfl]
      exact and_assoc.symm

/-- A handler run is notification-correct relative to a start state: its
notifications never repeat the previous value, and the tracked adapter
state always equals the last value notified (or the unchanged previous
state). -/
def NotifSpec (st : AdapterState) (out : List Output) (st1 : AdapterState) : Prop :=
  noDupFrom st.state (stateNotifs out) ∧
  lastNotif st.state (stateNotifs out) = st1.state

theorem notifSpec_comp {st st1 st2 : AdapterState} {o1 o2 : List Output}
    (h1 : NotifSpec st o1 st1) (h2 : NotifSpec st1 o2 st2) :
    NotifSpec st (o1 ++ o2) st2 := by
  obtain ⟨hn1, hl1⟩ := h1
  obtain ⟨hn2, hl2⟩ := h2
  constructor
  · rw [stateNotifs_append, noDupFrom_append]
    refine ⟨hn1, ?_⟩
    rw [hl1]
    exact hn2
  · rw [stateNotifs_append, lastNotif_append, hl1]
    exact hl2

theorem notifSpec_silent {st st1 : AdapterState} {out : List Output}
    (h : stateNotifs out = []) (hstate : st1.state = st.state) :
    NotifSpec st out st1 := by
  constructor
  · rw [h]; trivial
  · rw [h]; exact hstate.symm

/-- Lemma: `NotifSpec` only looks at the `.state` field of its start state. -/
theorem notifSpec_cast {st A B : AdapterState} {out : List Output}
    (h : NotifSpec A out B) (hA : A.state = st.state) : NotifSpec st out B := by
  obtain ⟨h1, h2⟩ := h
  rw [hA] at h1 h2
  exact ⟨h1, h2⟩

theorem notifSpec_setState (st : AdapterState) (s : ConnectionState) :
    NotifSpec st (setState st s).2 (setState st s).1 := by
  unfold setState
  split
  · exact ⟨trivial, rfl⟩
  · rename_i hne
    exact ⟨⟨hne, trivial⟩, rfl⟩

theorem notifSpec_stop (st : AdapterState) :
    NotifSpec st (stop st).2 (stop st).1 := by
  unfold stop
  split
  · exact ⟨trivial, rfl⟩
  · exact notifSpec_cast (notifSpec_setState _ _) rfl

theorem stateNotifs_eventTrace (tsNow : Nat) (isOpen : Bool) (e : CityEvent) :
    stateNotifs (eventTrace tsNow isOpen e) = [] := by
  cases isOpen <;> simp [eventTrace, stateNotifs]

theorem stateNotifs_backlog (tsNow : Nat) (isOpen : Bool) (es : List CityEvent) :
    stateNotifs (es.flatMap (eventTrace tsNow isOpen)) = [] := by
  induction es with
  | nil => simp [stateNotifs]
  | cons e rest ih =>
      simp [List.flatMap_cons, stateNotifs_append, stateNotifs_eventTrace, ih]

theorem dispatchPendingEvents_state (ok : CityEvent → Bool) (tsNow : Nat)
    (es : List CityEvent) : ∀ st : AdapterState,
    (dispatchPendingEvents ok tsNow st es).1.state = st.state := by
  induction es with
  | nil => intro st; rfl
  | cons e rest ih => intro st; simp [dispatchPendingEvents, handleCityEvent_trace, ih]

theorem handleWelcome_state (ok : CityEvent → Bool) (tsNow : Nat) (st : AdapterState)
    (w : WelcomeFrame) :
    (handleWelcome ok tsNow st w).1.state = (setState st .CONNECTED).1.state := by
  simp [handleWelcome, dispatchPendingEvents_state]

theorem scheduleReconnect_state (cfg : Config) (now : Nat) (u : ℚ) (st : AdapterState) :
    (scheduleReconnect cfg now u st).state = st.state := by
  unfold scheduleReconnect
  split <;> rfl

theorem notifSpec_handleWelcome (ok : CityEvent → Bool) (tsNow : Nat)
    (st : AdapterState) (w : WelcomeFrame) :
    NotifSpec st (handleWelcome ok tsNow st w).2 (handleWelcome ok tsNow st w).1 := by
  rw [(backlog_dispatched_sequentially ok tsNow st w).1]
  have h1 : NotifSpec st ((setState st .CONNECTED).2 ++ [Output.welcomeHook])
      (setState st .CONNECTED).1 :=
    notifSpec_comp (notifSpec_setState st .CONNECTED) (notifSpec_silent rfl rfl)
  have h2 : NotifSpec (setState st .CONNECTED).1
      (w.pending.flatMap (eventTrace tsNow st.wsOpen)) (handleWelcome ok tsNow st w).1 :=
    notifSpec_silent (stateNotifs_backlog _ _ _) (handleWelcome_state ok tsNow st w)
  exact notifSpec_comp h1 h2

theorem notifSpec_handleError (st : AdapterState) (now : Nat) (reason : String)
    (ra : Option ℚ) :
    NotifSpec st (handleError st now reason ra).2 (handleError st now reason ra).1 := by
  unfold handleError
  split
  · exact notifSpec_stop st
  · split
    · exact ⟨trivial, rfl⟩
    · exact ⟨trivial, rfl⟩

theorem notifSpec_connect (st : AdapterState) :
    NotifSpec st (connect st).2 (connect st).1 := by
  unfold connect
  split
  · exact ⟨trivial, rfl⟩
  · exact notifSpec_comp (notifSpec_setState st .CONNECTING) (notifSpec_silent rfl rfl)

theorem notifSpec_connectCatchRun (cfg : Config) (now : Nat) (u : ℚ) (st : AdapterState) :
    NotifSpec st (connectCatchRun cfg now u st).2 (connectCatchRun cfg now u st).1 := by
  unfold connectCatchRun
  split
  · exact ⟨trivial, rfl⟩
  · split
    · exact ⟨trivial, rfl⟩
    · exact notifSpec_silent rfl (scheduleReconnect_state cfg now u st)

theorem notifSpec_handleCityEvent (ok : CityEvent → Bool) (tsNow : Nat)
    (st : AdapterState) (e : CityEvent) :
    NotifSpec st (handleCityEvent ok tsNow st e).2 (handleCityEvent ok tsNow st e).1 := by
  refine notifSpec_silent ?_ ?_
  · rw [handleCityEvent_trace]
    exact stateNotifs_eventTrace _ _ _
  · rw [handleCityEvent_trace]

theorem notifSpec_onMessageFrame (cfg : Config) (ok : CityEvent → Bool) (now : Nat)
    (u : ℚ) (st : AdapterState) (f : Frame) :
    NotifSpec st (onMessageFrame cfg ok now u st f).2 (onMessageFrame cfg ok now u st f).1 := by
  cases f with
  | welcome w =>
      simp only [onMessageFrame]
      exact notifSpec_cast (notifSpec_handleWelcome ok now _ w) rfl
  | error reason msg ra =>
      simp only [onMessageFrame]
      split
      · exact notifSpec_cast (notifSpec_comp (notifSpec_handleError _ now reason ra)
          (notifSpec_connectCatchRun cfg now u _)) rfl
      · exact notifSpec_cast (notifSpec_handleError _ now reason ra) rfl
  | city_event ce =>
      simp only [onMessageFrame]
      exact notifSpec_handleCityEvent ok now st ce
  | action_result s => exact ⟨trivial, rfl⟩
  | pausedFrame m => exact ⟨trivial, rfl⟩
  | resumedFrame => exact ⟨trivial, rfl⟩
  | unknownFrame tag => exact ⟨trivial, rfl⟩

theorem notifSpec_onClose (cfg : Config) (now : Nat) (u : ℚ) (st : AdapterState)
    (code : Nat) :
    NotifSpec st (onCloseUpgradeAuth cfg now u st code).2
      (onCloseUpgradeAuth cfg now u st code).1 := by
  simp only [onCloseUpgradeAuth]
  by_cases hstop : st.stopped = true
  · rw [if_pos (show (({ st with pingActive := false } : AdapterState)).stopped = true from hstop)]
    exact ⟨trivial, rfl⟩
  · rw [if_neg (show ¬ (({ st with pingActive := false } : AdapterState)).stopped = true from hstop)]
    by_cases hc : code = 4000
    · rw [if_pos hc]
      exact notifSpec_cast (notifSpec_stop _) rfl
    · rw [if_neg hc]
      have hbase := notifSpec_setState ({ st with pingActive := false } : AdapterState)
        .DISCONNECTED
      split
      · exact notifSpec_cast hbase rfl
      · exact notifSpec_cast
          ⟨hbase.1, hbase.2.trans (scheduleReconnect_state cfg now u _).symm⟩ rfl

theorem notifSpec_step (cfg : Config) (ok : CityEvent → Bool) (now : Nat) (u : ℚ)
    (st : AdapterState) (e : Ev) :
    NotifSpec st (step cfg ok now u st e).2 (step cfg ok now u st e).1 := by
  cases e with
  | connectCall => exact notifSpec_connect st
  | stopCall => exact notifSpec_stop st
  | wsOpenEv =>
      simp only [step]
      split
      · split
        · exact ⟨trivial, rfl⟩
        · exact ⟨trivial, rfl⟩
      · exact ⟨trivial, rfl⟩
  | wsMessage f =>
      simp only [step]
      split
      · exact notifSpec_onMessageFrame cfg ok now u st f
      · exact ⟨trivial, rfl⟩
  | wsClose code =>
      simp only [step]
      split
      · exact notifSpec_cast (notifSpec_onClose cfg now u _ code) rfl
      · exact ⟨trivial, rfl⟩
  | wsError =>
      simp only [step]
      split
      · split
        · exact notifSpec_cast (notifSpec_connectCatchRun cfg now u _) rfl
        · exact ⟨trivial, rfl⟩
      · exact ⟨trivial, rfl⟩
  | timerFire =>
      cases htm : st.reconnectTimer with
      | none =>
          have hstep : step cfg ok now u st .timerFire = (st, []) := by
            simp [step, htm]
          rw [hstep]
          exact ⟨trivial, rfl⟩
      | some tm =>
          simp only [step, htm]
          split
          · split
            · split
              · exact ⟨trivial, rfl⟩
              · exact notifSpec_cast (notifSpec_connect _) rfl
            · split
              · exact ⟨trivial, rfl⟩
              · exact notifSpec_cast (notifSpec_connect _) rfl
          · exact ⟨trivial, rfl⟩
  | pingTick =>
      simp only [step]
      split
      · split
        · exact ⟨trivial, rfl⟩
        · exact ⟨trivial, rfl⟩
      · exact ⟨trivial, rfl⟩

theorem notifSpec_run (cfg : Config) (ok : CityEvent → Bool) :
    ∀ (evs : List (Nat × ℚ × Ev)) (st : AdapterState),
    NotifSpec st (run cfg ok st evs).2 (run cfg ok st evs).1 := by
  intro evs
  induction evs with
  | nil => intro st; exact ⟨trivial, rfl⟩
  | cons x rest ih =>
      obtain ⟨now, u, e⟩ := x
      intro st
      exact notifSpec_comp (notifSpec_step cfg ok now u st e)
        (ih (step cfg ok now u st e).1)

/-- C10: `setState` with a value equal to the current state performs no
mutation and no notification; a `stop()` on an already stopped adapter
does nothing, and a `stop()` while already DISCONNECTED emits no
state-change notification; and along every run of the adapter the sequence
of `onStateChange` notifications, with the starting state put in front, never
contains two equal consecutive values — duplicate consecutive state
notifications are impossible. -/
theorem duplicate_state_notifications_impossible (cfg : Config) (ok : CityEvent → Bool)
    (now : Nat) (u : ℚ) (st : AdapterState) (s : ConnectionState)
    (evs : List (Nat × ℚ × Ev)) :
    (st.state = s → setState st s = (st, [])) ∧
    (st.stopped = true → step cfg ok now u st .stopCall = (st, [])) ∧
    (st.stopped = false → st.state = .DISCONNECTED →
      stateNotifs (step cfg ok now u st .stopCall).2 = []) ∧
    noDupFrom st.state (stateNotifs (run cfg ok st evs).2) := by
  refine ⟨?_, ?_, ?_, (notifSpec_run cfg ok evs st).1⟩
  · intro h
    simp [setState, h]
  · intro h
    simp [step, stop, h]
  · intro h1 h2
    simp [step, stop, h1, setState, h2, stateNotifs]

theorem duplicate_state_notifications_impossible_witness :
    (stConnected.state = ConnectionState.CONNECTED ∧
      setState stConnected ConnectionState.CONNECTED = (stConnected, [])) ∧
    (initialState.stopped = false ∧ initialState.state = ConnectionState.DISCONNECTED ∧
      stateNotifs (step cfgEx (fun _ => true) 0 0 initialState .stopCall).2 = []) ∧
    noDupFrom stConnected.state
      (stateNotifs (run cfgEx (fun _ => true) stConnected
        [(0, 0, Ev.wsClose 1006), (5000, 0, Ev.timerFire)]).2) :=
  ⟨⟨rfl, (duplicate_state_notifications_impossible cfgEx (fun _ => true) 0 0 stConnected
      ConnectionState.CONNECTED []).1 rfl⟩,
   ⟨rfl, rfl, (duplicate_state_notifications_impossible cfgEx (fun _ => true) 0 0 initialState
      ConnectionState.DISCONNECTED []).2.2.1 rfl rfl⟩,
   (duplicate_state_notifications_impossible cfgEx (fun _ => true) 0 0 stConnected
      ConnectionState.DISCONNECTED [(0, 0, Ev.wsClose 1006), (5000, 0, Ev.timerFire)]).2.2.2⟩

end OpenClawCity


